import Mathlib

/-
Shallow embedding of the assistant-run polling and tool-dispatch coordinator
of wanderlust.py: the module-level reactive state (messages, zoom_level,
center, markers), the two registered tools (update_map, add_marker), the
tool dispatcher ai_call, the message-submission handler add_message, and one
iteration of the poll loop together with its final message-log
synchronisation.  External service interactions (run status retrieval,
message listing, run creation) are parameters: each operation takes the
values the service would return and records the requests it would issue.
-/

/-- Values carried in JSON tool arguments and stored in the dynamically typed
reactive state (Python places no type constraints on them). -/
inductive JVal where
  | num (q : Rat)
  | str (s : String)
  | null
  deriving DecidableEq

/-- A map marker as built at wanderlust.py line 90: a location pair
(latitude, longitude) and a label. -/
structure Marker where
  location : JVal × JVal
  label : JVal
  deriving DecidableEq

/-- A chat message as stored in the messages reactive: an identifier, a role
(user, assistant or tool) and text content. -/
structure Message where
  id : String
  role : String
  content : String
  deriving DecidableEq

/-- The mutable state of the coordinator: the module-level reactives
messages, zoom_level, center and markers (wanderlust.py lines 18-21) plus
the per-component reactives prompt and run_id of ChatInterface
(lines 133-134).  center is stored as (latitude, longitude). -/
structure S where
  messages : List Message
  zoom_level : JVal
  center : JVal × JVal
  markers : List Marker
  prompt : String
  run_id : Option String
  deriving DecidableEq

/-- The initial state: center_default (0, 0), zoom_default 2, empty message
log and marker list, no active run (wanderlust.py lines 13-21). -/
def initS : S :=
  { messages := []
    zoom_level := .num 2
    center := (.num 0, .num 0)
    markers := []
    prompt := ""
    run_id := none }

/-- wanderlust.py lines 82-86: update_map(longitude, latitude, zoom) sets
center to (latitude, longitude) and zoom_level to zoom, returning the
confirmation string. -/
def update_map (longitude latitude zoom : JVal) (st : S) : String × S :=
  ("Map updated", { st with center := (latitude, longitude), zoom_level := zoom })

/-- wanderlust.py lines 89-91: add_marker(longitude, latitude, label)
appends a marker with location (latitude, longitude) and the given label,
returning the confirmation string. -/
def add_marker (longitude latitude label : JVal) (st : S) : String × S :=
  ("Marker added",
   { st with markers := st.markers ++ [{ location := (latitude, longitude), label := label }] })

/-- A parsed JSON object of keyword arguments, as produced by json.loads. -/
abbrev Kwargs := List (String × JVal)

/-- Dictionary lookup of one keyword argument by name. -/
def kwLookup (args : Kwargs) (k : String) : Option JVal :=
  (args.find? (fun p => p.1 == k)).map (fun p => p.2)

/-- Python keyword-argument binding for a three-parameter function: all
three names must be present, otherwise binding fails (TypeError). -/
def bindKw3 (args : Kwargs) (k1 k2 k3 : String) : Option (JVal × JVal × JVal) :=
  match kwLookup args k1, kwLookup args k2, kwLookup args k3 with
  | some v1, some v2, some v3 => some (v1, v2, v3)
  | _, _, _ => none

/-- Python rejects unexpected keyword arguments: every supplied key must be
one of the declared parameter names. -/
def extraKeysOk (args : Kwargs) (keys : List String) : Bool :=
  args.all (fun p => keys.contains p.1)

/-- wanderlust.py lines 94-97 and 104: the fixed two-entry registry
functions = [update_map, add_marker] together with the dynamic call
functions[name](**arguments).  An unknown name raises KeyError; a missing
required argument or an unexpected keyword raises TypeError. -/
def functions_apply (name : String) (args : Kwargs) (st : S) : Except String (String × S) :=
  if name = "update_map" then
    match bindKw3 args "longitude" "latitude" "zoom" with
    | some (lon, lat, z) =>
      if extraKeysOk args ["longitude", "latitude", "zoom"] then
        .ok (update_map lon lat z st)
      else
        .error "TypeError: unexpected keyword argument"
    | none => .error "TypeError: missing required argument"
  else if name = "add_marker" then
    match bindKw3 args "longitude" "latitude" "label" with
    | some (lon, lat, lab) =>
      if extraKeysOk args ["longitude", "latitude", "label"] then
        .ok (add_marker lon lat lab st)
      else
        .error "TypeError: unexpected keyword argument"
    | none => .error "TypeError: missing required argument"
  else
    .error ("KeyError: " ++ name)

/-- The function field of a tool call: a name and the argument string as
parsed by json.loads — none models malformed JSON (JSONDecodeError). -/
structure ToolFunction where
  name : String
  arguments : Option Kwargs
  deriving DecidableEq

/-- A tool call received in a requires_action payload: an identifier and a
function field (wanderlust.py lines 100-103). -/
structure ToolCall where
  id : String
  function : ToolFunction
  deriving DecidableEq

/-- The tool_outputs dictionary built at wanderlust.py lines 105-108. -/
structure ToolOutput where
  tool_call_id : String
  output : String
  deriving DecidableEq

/-- wanderlust.py lines 100-109: ai_call parses the arguments (raising on
malformed JSON), looks the name up in the registry and calls it with the
parsed arguments (raising KeyError or TypeError on failure), and on success
wraps the returned confirmation with the originating identifier. -/
def ai_call (tool_call : ToolCall) (st : S) : Except String (ToolOutput × S) :=
  match tool_call.function.arguments with
  | none => .error "JSONDecodeError: malformed tool arguments"
  | some arguments =>
    match functions_apply tool_call.function.name arguments st with
    | .error e => .error e
    | .ok (return_value, st1) =>
      .ok ({ tool_call_id := tool_call.id, output := return_value }, st1)

/-- The service-side requests that add_message issues: whether a user
message was created and whether a run was created. -/
structure SubmitEffect where
  createdMessage : Bool
  createdRun : Bool
  deriving DecidableEq

/-- wanderlust.py lines 139-152: add_message returns immediately on empty
input; otherwise it clears the prompt, creates a user message at the
service and appends it to the log, then creates a run and stores its
identifier in run_id.  svcNewMessage and svcRunId are the values the
service returns for those two requests. -/
def add_message (svcNewMessage : Message) (svcRunId : String) (value : String) (st : S) :
    S × SubmitEffect :=
  if value = "" then
    (st, { createdMessage := false, createdRun := false })
  else
    ({ st with
        prompt := ""
        messages := st.messages ++ [svcNewMessage]
        run_id := some svcRunId },
     { createdMessage := true, createdRun := true })

/-- What one iteration of the poll loop observes: either the retrieve call
raised NotFoundError (the run is not yet visible), or it returned a run
with the given status string and required-action tool calls. -/
inductive Observation where
  | notFound
  | status (s : String) (tool_calls : List ToolCall)
  deriving DecidableEq

/-- The externally visible effects of one poll-loop iteration: the
tool_outputs list of each submit_tool_outputs request issued (in order),
whether the iteration reached the time.sleep(0.1) call, and whether it set
the completed flag that ends the loop. -/
structure IterEffect where
  submissions : List (List ToolOutput)
  slept : Bool
  completed : Bool
  deriving DecidableEq

/-- wanderlust.py lines 168-174: the requires_action branch walks the
pending tool calls in order and, for each one separately, dispatches it via
ai_call and immediately issues a submit_tool_outputs request whose
tool_outputs list holds just that one output.  An exception from ai_call
propagates, abandoning the iteration. -/
def processToolCalls (calls : List ToolCall) (st : S) :
    Except String (List (List ToolOutput) × S) :=
  match calls with
  | [] => .ok ([], st)
  | c :: rest =>
    match ai_call c st with
    | .error e => .error e
    | .ok (out, st1) =>
      match processToolCalls rest st1 with
      | .error e => .error e
      | .ok (subs, st2) => .ok ([out] :: subs, st2)

/-- wanderlust.py lines 158-184: one iteration of the while loop.  A
NotFoundError makes the loop continue immediately, skipping the sleep.
Otherwise the requires_action branch runs processToolCalls; the completed
branch appends the newest service message (data[0], raising IndexError if
the listing is empty), clears run_id and sets the completed flag; every
such iteration then reaches time.sleep(0.1).  svcData is the message
listing the service would return, newest first. -/
def pollIter (obs : Observation) (svcData : List Message) (st : S) :
    Except String (S × IterEffect) :=
  match obs with
  | .notFound => .ok (st, { submissions := [], slept := false, completed := false })
  | .status s tool_calls =>
    match (if s = "requires_action" then processToolCalls tool_calls st else .ok ([], st)) with
    | .error e => .error e
    | .ok (subs, st1) =>
      if s = "completed" then
        match svcData with
        | [] => .error "IndexError: list index out of range"
        | m0 :: _ =>
          .ok ({ st1 with messages := st1.messages ++ [m0], run_id := none },
               { submissions := subs, slept := true, completed := true })
      else
        .ok (st1, { submissions := subs, slept := true, completed := false })

/-- wanderlust.py lines 185-186: after the loop exits, the whole message
log is replaced by the service listing (newest first). -/
def pollFinal (svcData : List Message) (st : S) : S :=
  { st with messages := svcData }

/-- The state the loop holds after an iteration: the new state on success,
the unchanged pre-iteration state when the iteration raised (an exception
commits nothing). -/
def iterState (r : Except String (S × IterEffect)) (st : S) : S :=
  match r with
  | .error _ => st
  | .ok (st1, _) => st1

/-- The submit_tool_outputs requests of an iteration (empty if it raised). -/
def iterSubmissions (r : Except String (S × IterEffect)) : List (List ToolOutput) :=
  match r with
  | .error _ => []
  | .ok (_, eff) => eff.submissions

/-- One message log extends another by appending at the end. -/
def msgExtends (st st1 : S) : Prop :=
  ∃ t, st1.messages = st.messages ++ t

/-- The parameter names the registered function with this name requires
(per the registry of wanderlust.py lines 94-97 and the signatures at
lines 82 and 89). -/
def requiredKeys (name : String) : List String :=
  if name = "update_map" then ["longitude", "latitude", "zoom"]
  else if name = "add_marker" then ["longitude", "latitude", "label"]
  else []

/-- A tool call that must fail locally: unknown name, malformed argument
JSON, or a missing required argument. -/
def badToolCall (c : ToolCall) : Prop :=
  (¬ (c.function.name = "update_map" ∨ c.function.name = "add_marker"))
  ∨ c.function.arguments = none
  ∨ (∃ args, c.function.arguments = some args ∧
      ∃ k ∈ requiredKeys c.function.name, kwLookup args k = none)

/-- Sample concrete data used by witnesses and counterexamples. -/
def msgA : Message := { id := "m1", role := "user", content := "Go to Paris" }

def msgB : Message := { id := "m2", role := "assistant", content := "Here is Paris." }

def goodCall1 : ToolCall :=
  { id := "call_1"
    function :=
      { name := "update_map"
        arguments := some [("longitude", .num 2), ("latitude", .num 48), ("zoom", .num 10)] } }

def goodCall2 : ToolCall :=
  { id := "call_2"
    function :=
      { name := "add_marker"
        arguments := some [("longitude", .num 2), ("latitude", .num 48), ("label", .str "Paris")] } }

def badCall0 : ToolCall :=
  { id := "call_9", function := { name := "fly_to", arguments := some [] } }

/-- The state after dispatching goodCall1 then goodCall2 from initS. -/
def stBoth : S :=
  { messages := []
    zoom_level := .num 10
    center := (.num 48, .num 2)
    markers := [{ location := (.num 48, .num 2), label := .str "Paris" }]
    prompt := ""
    run_id := none }

/-- The iteration effect of a requires_action observation with goodCall1
and goodCall2 pending. -/
def effBoth : IterEffect :=
  { submissions := [[{ tool_call_id := "call_1", output := "Map updated" }],
                    [{ tool_call_id := "call_2", output := "Marker added" }]]
    slept := true
    completed := false }

/- Helper lemmas shared by several developments. -/

/-- ai_call on success reports the originating identifier and leaves the
message log untouched (the tools mutate only map state). -/
theorem ai_call_ok_facts (c : ToolCall) (st : S) (out : ToolOutput) (st1 : S)
    (h : ai_call c st = .ok (out, st1)) :
    out.tool_call_id = c.id ∧ st1.messages = st.messages := by
  unfold ai_call at h
  split at h
  · exact absurd h (by simp)
  · rename_i args harg
    split at h
    · exact absurd h (by simp)
    · rename_i rv stA hap
      simp only [Except.ok.injEq, Prod.mk.injEq] at h
      obtain ⟨hout, hst⟩ := h
      refine ⟨by rw [← hout], ?_⟩
      rw [← hst]
      unfold functions_apply at hap
      split at hap
      · split at hap
        · split at hap
          · simp only [Except.ok.injEq, update_map, Prod.mk.injEq] at hap
            rw [← hap.2]
          · exact absurd hap (by simp)
        · exact absurd hap (by simp)
      · split at hap
        · split at hap
          · split at hap
            · simp only [Except.ok.injEq, add_marker, Prod.mk.injEq] at hap
              rw [← hap.2]
            · exact absurd hap (by simp)
          · exact absurd hap (by simp)
        · exact absurd hap (by simp)

/-- processToolCalls on success issues one singleton submission per tool
call, with matching identifiers, and leaves the message log untouched. -/
theorem processToolCalls_facts (calls : List ToolCall) (st : S)
    (subs : List (List ToolOutput)) (st1 : S)
    (h : processToolCalls calls st = .ok (subs, st1)) :
    subs.map (fun b => b.map (fun o => o.tool_call_id)) = calls.map (fun c => [c.id]) ∧
    st1.messages = st.messages := by
  induction calls generalizing st subs st1 with
  | nil =>
    unfold processToolCalls at h
    simp only [Except.ok.injEq, Prod.mk.injEq] at h
    obtain ⟨h1, h2⟩ := h
    rw [← h1, ← h2]
    simp
  | cons c rest ih =>
    unfold processToolCalls at h
    split at h
    · exact absurd h (by simp)
    · rename_i out stA hc
      split at h
      · exact absurd h (by simp)
      · rename_i subsR stB hr
        simp only [Except.ok.injEq, Prod.mk.injEq] at h
        obtain ⟨h1, h2⟩ := h
        obtain ⟨hid, hmsg⟩ := ai_call_ok_facts c st out stA hc
        obtain ⟨ihids, ihmsg⟩ := ih stA subsR stB hr
        constructor
        · rw [← h1]
          simp only [List.map_cons, ihids, hid]
          simp
        · rw [← h2, ihmsg, hmsg]

/-- Unfolding equation for a poll iteration that observed a run status. -/
theorem pollIter_status_eq (s : String) (calls : List ToolCall) (svc : List Message) (st : S) :
    pollIter (.status s calls) svc st
      = (match (if s = "requires_action" then processToolCalls calls st else .ok ([], st)) with
         | .error e => (.error e : Except String (S × IterEffect))
         | .ok (subs, stA) =>
           if s = "completed" then
             match svc with
             | [] => .error "IndexError: list index out of range"
             | m0 :: _ =>
               .ok ({ stA with messages := stA.messages ++ [m0], run_id := none },
                    { submissions := subs, slept := true, completed := true })
           else .ok (stA, { submissions := subs, slept := true, completed := false })) := rfl

/-- Unfolding equation for ai_call once the arguments have parsed. -/
theorem ai_call_unfold (c : ToolCall) (st : S) (args : Kwargs)
    (harg : c.function.arguments = some args) :
    ai_call c st
      = (match functions_apply c.function.name args st with
         | .error e => .error e
         | .ok (return_value, st1) =>
           .ok ({ tool_call_id := c.id, output := return_value }, st1)) := by
  unfold ai_call
  rw [harg]

/-- Keyword binding fails whenever one of the required names is absent. -/
theorem bindKw3_eq_none (args : Kwargs) (k1 k2 k3 k : String)
    (hk : k = k1 ∨ k = k2 ∨ k = k3) (hnone : kwLookup args k = none) :
    bindKw3 args k1 k2 k3 = none := by
  rcases hk with rfl | rfl | rfl
  · rcases h2 : kwLookup args k2 with _ | v2 <;> rcases h3 : kwLookup args k3 with _ | v3 <;>
      unfold bindKw3 <;> rw [hnone, h2, h3]
  · rcases h1 : kwLookup args k1 with _ | v1 <;> rcases h3 : kwLookup args k3 with _ | v3 <;>
      unfold bindKw3 <;> rw [h1, hnone, h3]
  · rcases h1 : kwLookup args k1 with _ | v1 <;> rcases h2 : kwLookup args k2 with _ | v2 <;>
      unfold bindKw3 <;> rw [h1, h2, hnone]

/-- Any tool call satisfying badToolCall makes ai_call raise. -/
theorem ai_call_bad_errors (c : ToolCall) (st : S) (h : badToolCall c) :
    ∃ e, ai_call c st = .error e := by
  rcases h with hname | hargs | ⟨args, hargs, k, hk, hnone⟩
  · push_neg at hname
    obtain ⟨h1, h2⟩ := hname
    cases harg : c.function.arguments with
    | none =>
      refine ⟨"JSONDecodeError: malformed tool arguments", ?_⟩
      unfold ai_call
      rw [harg]
    | some args =>
      refine ⟨"KeyError: " ++ c.function.name, ?_⟩
      rw [ai_call_unfold c st args harg]
      have hfa : functions_apply c.function.name args st
          = .error ("KeyError: " ++ c.function.name) := by
        unfold functions_apply
        rw [if_neg h1, if_neg h2]
      rw [hfa]
  · refine ⟨"JSONDecodeError: malformed tool arguments", ?_⟩
    unfold ai_call
    rw [hargs]
  · by_cases h1 : c.function.name = "update_map"
    · have hk3 : k = "longitude" ∨ k = "latitude" ∨ k = "zoom" := by
        rw [h1] at hk
        simpa [requiredKeys] using hk
      have hb := bindKw3_eq_none args "longitude" "latitude" "zoom" k hk3 hnone
      refine ⟨"TypeError: missing required argument", ?_⟩
      rw [ai_call_unfold c st args hargs]
      have hfa : functions_apply c.function.name args st
          = .error "TypeError: missing required argument" := by
        rw [h1]
        unfold functions_apply
        rw [if_pos rfl, hb]
      rw [hfa]
    · by_cases h2 : c.function.name = "add_marker"
      · have hk3 : k = "longitude" ∨ k = "latitude" ∨ k = "label" := by
          rw [h2] at hk
          simpa [requiredKeys] using hk
        have hb := bindKw3_eq_none args "longitude" "latitude" "label" k hk3 hnone
        refine ⟨"TypeError: missing required argument", ?_⟩
        rw [ai_call_unfold c st args hargs]
        have hfa : functions_apply c.function.name args st
            = .error "TypeError: missing required argument" := by
          rw [h2]
          unfold functions_apply
          rw [if_neg (by decide), if_pos rfl, hb]
        rw [hfa]
      · have hreq : requiredKeys c.function.name = [] := by
          unfold requiredKeys
          rw [if_neg h1, if_neg h2]
        rw [hreq] at hk
        exact absurd hk (List.not_mem_nil k)

/- Claim theorems. -/

/-- Claim C3: update_map with numeric arguments succeeds, setting center to
exactly (latitude, longitude) and zoom_level to exactly zoom, and returns
the confirmation string; latitude and longitude are not swapped. -/
theorem update_map_sets_center_zoom (lon lat z : Rat) (st : S) :
    (update_map (.num lon) (.num lat) (.num z) st).1 = "Map updated" ∧
    (update_map (.num lon) (.num lat) (.num z) st).2.center = (JVal.num lat, JVal.num lon) ∧
    (update_map (.num lon) (.num lat) (.num z) st).2.zoom_level = JVal.num z :=
  ⟨rfl, rfl, rfl⟩

/-- Claim C4: add_marker appends exactly one marker: the new list is the old
list with Marker (latitude, longitude) label concatenated at the end, so its
length grows by one, the new marker is the last element, and every prior
marker is unchanged in its original position. -/
theorem add_marker_append_law (lon lat : Rat) (label : String) (st : S) :
    (add_marker (.num lon) (.num lat) (.str label) st).2.markers
      = st.markers ++ [{ location := (JVal.num lat, JVal.num lon), label := JVal.str label }] ∧
    (add_marker (.num lon) (.num lat) (.str label) st).2.markers.length
      = st.markers.length + 1 ∧
    (add_marker (.num lon) (.num lat) (.str label) st).2.markers.getLast?
      = some { location := (JVal.num lat, JVal.num lon), label := JVal.str label } ∧
    (add_marker (.num lon) (.num lat) (.str label) st).1 = "Marker added" := by
  refine ⟨rfl, by simp [add_marker], ?_, rfl⟩
  show (st.markers ++ [_]).getLast? = _
  rw [List.getLast?_append]
  rfl

/-- Claim C10: frame property of the tools: update_map leaves the marker
list, the message log and the run handle unchanged, and add_marker leaves
center, zoom_level, the message log and the run handle unchanged. -/
theorem tools_frame (a b c lab : JVal) (st : S) :
    (update_map a b c st).2.markers = st.markers ∧
    (update_map a b c st).2.messages = st.messages ∧
    (update_map a b c st).2.run_id = st.run_id ∧
    (add_marker a b lab st).2.center = st.center ∧
    (add_marker a b lab st).2.zoom_level = st.zoom_level ∧
    (add_marker a b lab st).2.messages = st.messages ∧
    (add_marker a b lab st).2.run_id = st.run_id :=
  ⟨rfl, rfl, rfl, rfl, rfl, rfl, rfl⟩

/-- Claim C7: submitting the empty string is a no-op: the state (message
log, map state, run handle) is returned unchanged and no service request
(message creation or run creation) is issued. -/
theorem add_message_empty_noop (m : Message) (r : String) (st : S) :
    add_message m r "" st = (st, { createdMessage := false, createdRun := false }) := by
  unfold add_message
  rw [if_pos rfl]

/-- Claim C2: a poll iteration observing the terminal status failed commits
no change at all — the state (run_id included) is returned exactly as it
was, no error is raised, the iteration sleeps, and the completed flag stays
false, so the loop keeps polling forever instead of clearing the RunHandle,
surfacing an error and stopping. -/
theorem failed_status_loops_unchanged (calls : List ToolCall) (svc : List Message) (st : S) :
    pollIter (.status "failed" calls) svc st
      = .ok (st, { submissions := [], slept := true, completed := false }) := rfl

/-- Claim C1 counterexample: a requires_action observation with two pending
tool calls issues two submit_tool_outputs requests, not a single batched
one. -/
theorem two_tool_calls_two_submit_requests :
    (iterSubmissions (pollIter (.status "requires_action" [goodCall1, goodCall2]) [] initS)).length
      = 2 ∧
    ¬ (iterSubmissions
        (pollIter (.status "requires_action" [goodCall1, goodCall2]) [] initS)).length = 1 :=
  ⟨rfl, by decide⟩

/-- Claim C1 (amended): a requires_action observation with N pending tool
calls issues N submit_tool_outputs requests before the next poll, one per
tool call in order, each carrying exactly one ToolResult whose
tool_call_id equals the identifier of the ToolCall it answers. -/
theorem requires_action_submission_ids (calls : List ToolCall) (svc : List Message)
    (st st1 : S) (eff : IterEffect)
    (h : pollIter (.status "requires_action" calls) svc st = .ok (st1, eff)) :
    eff.submissions.map (fun b => b.map (fun o => o.tool_call_id))
      = calls.map (fun c => [c.id]) := by
  have hb : pollIter (.status "requires_action" calls) svc st
      = (match processToolCalls calls st with
         | .error e => (.error e : Except String (S × IterEffect))
         | .ok (subs, stA) =>
           .ok (stA, { submissions := subs, slept := true, completed := false })) := rfl
  rw [hb] at h
  split at h
  · exact absurd h (by simp)
  · rename_i subs stA hp
    simp only [Except.ok.injEq, Prod.mk.injEq] at h
    rw [← h.2]
    exact (processToolCalls_facts calls st subs stA hp).1

/-- Claim C1 witness: the amended statement instantiated on two concrete
tool calls dispatched from the initial state. -/
theorem requires_action_submission_ids_witness :
    pollIter (.status "requires_action" [goodCall1, goodCall2]) [] initS = .ok (stBoth, effBoth) ∧
    effBoth.submissions.map (fun b => b.map (fun o => o.tool_call_id))
      = [goodCall1, goodCall2].map (fun c => [c.id]) :=
  ⟨rfl, requires_action_submission_ids [goodCall1, goodCall2] [] initS stBoth effBoth rfl⟩

/-- Claim C9 counterexample: the iteration that observes the not-found
condition loops again immediately — it never reaches the sleep call. -/
theorem not_found_retries_without_pause :
    pollIter Observation.notFound [] initS
      = .ok (initS, { submissions := [], slept := false, completed := false }) := rfl

/-- Claim C9 (amended): every iteration that successfully observes a run
status (terminal or not) reaches the 100 ms sleep before the next status
query; only the not-found path re-queries without pausing. -/
theorem status_iteration_sleeps (s : String) (calls : List ToolCall) (svc : List Message)
    (st st1 : S) (eff : IterEffect)
    (h : pollIter (.status s calls) svc st = .ok (st1, eff)) :
    eff.slept = true := by
  rw [pollIter_status_eq] at h
  split at h
  · exact absurd h (by simp)
  · rename_i subs stA heq
    split at h
    · split at h
      · exact absurd h (by simp)
      · simp only [Except.ok.injEq, Prod.mk.injEq] at h
        rw [← h.2]
    · simp only [Except.ok.injEq, Prod.mk.injEq] at h
      rw [← h.2]

/-- Claim C9 witness: an in_progress observation sleeps before the next
query. -/
theorem status_iteration_sleeps_witness :
    pollIter (.status "in_progress" []) [] initS
      = .ok (initS, { submissions := [], slept := true, completed := false }) ∧
    ({ submissions := [], slept := true, completed := false } : IterEffect).slept = true :=
  ⟨rfl,
   status_iteration_sleeps "in_progress" [] [] initS initS
     { submissions := [], slept := true, completed := false } rfl⟩

/-- A state with an active run handle, for the concurrency counterexample. -/
def stActive : S := { initS with run_id := some "run_0" }

/-- Claim C5 counterexample: with a RunHandle already active, a second
non-empty submission is neither rejected nor queued — it creates a second
run and silently overwrites the active RunHandle. -/
theorem add_message_starts_second_run :
    stActive.run_id = some "run_0" ∧
    (add_message msgA "run_1" "hello" stActive).2.createdRun = true ∧
    (add_message msgA "run_1" "hello" stActive).1.run_id = some "run_1" :=
  ⟨rfl, rfl, rfl⟩

/-- Claim C5 (amended): add_message itself rejects only the empty string;
called with non-empty text it always appends the user message, creates a
run and stores its handle, replacing any active RunHandle.  At most one
active run is ensured only by the UI disabling the input field while the
poll worker thread is running, not by the coordinator. -/
theorem add_message_nonempty_replaces_run (m : Message) (r v : String) (st : S)
    (h : v ≠ "") :
    (add_message m r v st).2.createdRun = true ∧
    (add_message m r v st).1.run_id = some r ∧
    (add_message m r v st).1.messages = st.messages ++ [m] := by
  unfold add_message
  rw [if_neg h]
  exact ⟨rfl, rfl, rfl⟩

/-- Claim C5 witness: the amended statement instantiated on a concrete
non-empty submission over a state with an active run. -/
theorem add_message_nonempty_replaces_run_witness :
    ("hi" : String) ≠ "" ∧
    ((add_message msgA "run_1" "hi" stActive).2.createdRun = true ∧
     (add_message msgA "run_1" "hi" stActive).1.run_id = some "run_1" ∧
     (add_message msgA "run_1" "hi" stActive).1.messages = stActive.messages ++ [msgA]) :=
  ⟨by decide, add_message_nonempty_replaces_run msgA "run_1" "hi" stActive (by decide)⟩

/-- Claim C6 counterexample: the final synchronisation after the loop exits
replaces the whole log with the newest-first service listing, so the
message at position zero changes — the log is not append-only across that
step. -/
theorem final_sync_rewrites_log :
    ({ initS with messages := [msgA] } : S).messages.head? = some msgA ∧
    (pollFinal [msgB, msgA] { initS with messages := [msgA] }).messages.head? = some msgB ∧
    msgB ≠ msgA :=
  ⟨rfl, rfl, by decide⟩

/-- Claim C6 (amended): add_message and every successful poll iteration
only append to the message log, but the final synchronisation after the
loop exits replaces the whole log with the service listing (newest
first). -/
theorem log_append_only_until_final_sync (m : Message) (r v : String) (obs : Observation)
    (svc : List Message) (st : S) :
    msgExtends st (add_message m r v st).1 ∧
    msgExtends st (iterState (pollIter obs svc st) st) ∧
    (pollFinal svc st).messages = svc := by
  refine ⟨?_, ?_, rfl⟩
  · unfold add_message
    by_cases hv : v = ""
    · rw [if_pos hv]
      exact ⟨[], by simp⟩
    · rw [if_neg hv]
      exact ⟨[m], rfl⟩
  · cases obs with
    | notFound => exact ⟨[], by simp [pollIter, iterState]⟩
    | status s calls =>
      have hmsgs : ∀ subs stA,
          (if s = "requires_action" then processToolCalls calls st else .ok ([], st))
            = .ok (subs, stA) → stA.messages = st.messages := by
        intro subs stA hh
        by_cases hs : s = "requires_action"
        · rw [if_pos hs] at hh
          exact (processToolCalls_facts calls st subs stA hh).2
        · rw [if_neg hs] at hh
          simp only [Except.ok.injEq, Prod.mk.injEq] at hh
          rw [← hh.2]
      rcases hq : (if s = "requires_action" then processToolCalls calls st else .ok ([], st))
        with e | ⟨subs, stA⟩
      · have hres : pollIter (.status s calls) svc st = .error e := by
          rw [pollIter_status_eq, hq]
        rw [hres]
        exact ⟨[], by simp [iterState]⟩
      · have hA : stA.messages = st.messages := hmsgs subs stA hq
        by_cases hc : s = "completed"
        · cases svc with
          | nil =>
            have hres : pollIter (.status s calls) [] st
                = .error "IndexError: list index out of range" := by
              rw [pollIter_status_eq]
              simp only [hq]
              rw [if_pos hc]
            rw [hres]
            exact ⟨[], by simp [iterState]⟩
          | cons m0 rest =>
            have hres : pollIter (.status s calls) (m0 :: rest) st
                = .ok ({ stA with messages := stA.messages ++ [m0], run_id := none },
                       { submissions := subs, slept := true, completed := true }) := by
              rw [pollIter_status_eq]
              simp only [hq]
              rw [if_pos hc]
            rw [hres]
            refine ⟨[m0], ?_⟩
            show stA.messages ++ [m0] = st.messages ++ [m0]
            rw [hA]
        · have hres : pollIter (.status s calls) svc st
              = .ok (stA, { submissions := subs, slept := true, completed := false }) := by
            rw [pollIter_status_eq]
            simp only [hq]
            rw [if_neg hc]
          rw [hres]
          refine ⟨[], ?_⟩
          simp only [iterState]
          rw [hA, List.append_nil]

/-- Claim C8: dispatching a tool call whose name is not in the two-entry
registry, whose arguments are malformed JSON, or whose arguments lack a
required field raises a local error from ai_call (it does not silently
proceed), and the poll iteration containing it commits no state change at
all. -/
theorem bad_tool_call_errors (c : ToolCall) (st : S) (h : badToolCall c) :
    (∃ e, ai_call c st = .error e) ∧
    iterState (pollIter (.status "requires_action" [c]) [] st) st = st := by
  obtain ⟨e, he⟩ := ai_call_bad_errors c st h
  refine ⟨⟨e, he⟩, ?_⟩
  have hP : processToolCalls [c] st = .error e := by
    have hb : processToolCalls [c] st
        = (match ai_call c st with
           | .error e => (.error e : Except String (List (List ToolOutput) × S))
           | .ok (out, st1) =>
             match processToolCalls [] st1 with
             | .error e => .error e
             | .ok (subs, st2) => .ok ([out] :: subs, st2)) := rfl
    rw [hb, he]
  have hp2 : pollIter (.status "requires_action" [c]) [] st = .error e := by
    have hb : pollIter (.status "requires_action" [c]) [] st
        = (match processToolCalls [c] st with
           | .error e => (.error e : Except String (S × IterEffect))
           | .ok (subs, stA) =>
             .ok (stA, { submissions := subs, slept := true, completed := false })) := rfl
    rw [hb, hP]
  rw [hp2]
  simp [iterState]

/-- Claim C8 witness: a concrete tool call with an unknown name raises a
KeyError from ai_call and its poll iteration commits no state change. -/
theorem bad_tool_call_errors_witness :
    badToolCall badCall0 ∧
    ((∃ e, ai_call badCall0 initS = .error e) ∧
     iterState (pollIter (.status "requires_action" [badCall0]) [] initS) initS = initS) :=
  ⟨Or.inl (by decide), bad_tool_call_errors badCall0 initS (Or.inl (by decide))⟩
